import Mathlib

/-!
Verification development for the audioDiarization repository.

The repository contains `sarvam.js` (an asynchronous batch job workflow:
initialize → upload → start → poll-until-terminal → download) and `main.js`
(a synchronous transcription consumer that formats utterances).  The
definitions below are shallow embeddings of those source files: network
effects are passed in explicitly (an `Except` value per remote call, a
script of status responses for the poll loop), and the observable behaviour
(status calls, sleeps, download events, written files, exit status) is
returned as data.
-/

namespace AudioDiarization

/-- Job status payload returned by the `job/{id}/status` endpoint of
`sarvam.js` (`checkJobStatus`): the `job_state` string and, on failure, an
`error_message`. -/
structure StatusResponse where
  job_state : String
  error_message : String
deriving DecidableEq

/-- Outcome of the poll loop in `main` of `sarvam.js`.
`completed` is the `break` on `status === 'Completed'` (the workflow then
proceeds to download); `remoteJobFailure` is the `'❌ Job failed!'` early
`return`, carrying the service `error_message` (the spec's
`RemoteJobFailure`); `timeoutError` is the post-loop
`'Job did not complete within expected time'` early `return` (the spec's
`TimeoutError`); `threw` is a `checkJobStatus` call rejecting, which
propagates to `main`'s catch block. -/
inductive PollOutcome where
  | completed
  | remoteJobFailure (msg : String)
  | timeoutError
  | threw (e : String)
deriving DecidableEq

/-- Observable trace of one run of the poll loop: its outcome, how many
`checkJobStatus` calls were made, and how many fixed-interval sleeps were
performed. -/
structure PollTrace where
  outcome : PollOutcome
  statusCalls : Nat
  sleeps : Nat
deriving DecidableEq

/-- The `while (attempts < maxAttempts)` loop of `main` in `sarvam.js`,
with `fuel = maxAttempts - attempts` (the loop guard `attempts <
maxAttempts` holds exactly when `fuel > 0`).  `script calls` is the result
of the `calls`-th `checkJobStatus` invocation (`.error` models the call
rejecting).  Each iteration increments the attempt counter, makes one
status call, breaks on `Completed`, returns on `Failed`, and otherwise
sleeps for the fixed interval and continues.  When the guard fails, the
post-loop check `if (status !== 'Completed')` runs on the last observed
state (initially the empty string). -/
def pollLoopAux (script : Nat → Except String StatusResponse) :
    Nat → Nat → Nat → String → PollTrace
  | 0, calls, sleeps, status =>
    if status = "Completed" then ⟨.completed, calls, sleeps⟩
    else ⟨.timeoutError, calls, sleeps⟩
  | fuel + 1, calls, sleeps, _ =>
    match script calls with
    | .error e => ⟨.threw e, calls + 1, sleeps⟩
    | .ok resp =>
      if resp.job_state = "Completed" then ⟨.completed, calls + 1, sleeps⟩
      else if resp.job_state = "Failed" then
        ⟨.remoteJobFailure resp.error_message, calls + 1, sleeps⟩
      else pollLoopAux script fuel (calls + 1) (sleeps + 1) resp.job_state

/-- The poll loop of `main` in `sarvam.js`, started with `attempts = 0`
and `status = ''`. -/
def pollLoop (script : Nat → Except String StatusResponse)
    (maxAttempts : Nat) : PollTrace :=
  pollLoopAux script maxAttempts 0 0 ""

/-- Lifts a scripted sequence of status responses (every call succeeds)
into the poll loop's call model. -/
def okScript (s : Nat → StatusResponse) : Nat → Except String StatusResponse :=
  fun i => .ok (s i)

/-- Environment for one run of `main` in `sarvam.js`: the result of each
remote step (`.error` models the underlying call rejecting, which every
wrapper re-raises after logging). -/
structure Env where
  initResult : Except String Unit
  streamResult : Except String Unit
  uploadResult : Except String Unit
  startResult : Except String Unit
  script : Nat → Except String StatusResponse
  downloadResult : Except String Unit

/-- Observable result of one run of `main` in `sarvam.js`: whether the
process terminated via `process.exit(1)` (`exitNonZero = true`) or by
returning from `main` (exit status 0), which steps were attempted, the
poll-loop counts, and the poll outcome (`none` when the workflow died
before polling). -/
structure RunResult where
  exitNonZero : Bool
  uploadAttempted : Bool
  startAttempted : Bool
  pollAttempted : Bool
  downloadAttempted : Bool
  statusCalls : Nat
  sleeps : Nat
  pollOutcome : Option PollOutcome
deriving DecidableEq

/-- The orchestrator `main` of `sarvam.js`.  Every thrown step error lands
in the catch block, which calls `process.exit(1)`.  A `Failed` job state
and the poll-ceiling expiry instead `return` from `main` (normal exit,
status 0) after logging; downloads only happen after a `Completed` state. -/
def mainRun (env : Env) (maxAttempts : Nat) : RunResult :=
  match env.initResult with
  | .error _ => ⟨true, false, false, false, false, 0, 0, none⟩
  | .ok _ =>
    match env.streamResult with
    | .error _ => ⟨true, false, false, false, false, 0, 0, none⟩
    | .ok _ =>
      match env.uploadResult with
      | .error _ => ⟨true, true, false, false, false, 0, 0, none⟩
      | .ok _ =>
        match env.startResult with
        | .error _ => ⟨true, true, true, false, false, 0, 0, none⟩
        | .ok _ =>
          let t := pollLoop env.script maxAttempts
          match t.outcome with
          | .threw _ =>
            ⟨true, true, true, true, false, t.statusCalls, t.sleeps, some t.outcome⟩
          | .remoteJobFailure _ =>
            ⟨false, true, true, true, false, t.statusCalls, t.sleeps, some t.outcome⟩
          | .timeoutError =>
            ⟨false, true, true, true, false, t.statusCalls, t.sleeps, some t.outcome⟩
          | .completed =>
            match env.downloadResult with
            | .error _ =>
              ⟨true, true, true, true, true, t.statusCalls, t.sleeps, some t.outcome⟩
            | .ok _ =>
              ⟨false, true, true, true, true, t.statusCalls, t.sleeps, some t.outcome⟩

/-- Environment in which initialization, stream acquisition, upload, start
and download all succeed and the status calls follow the scripted
responses `s`. -/
def goodEnv (s : Nat → StatusResponse) : Env :=
  ⟨.ok (), .ok (), .ok (), .ok (), okScript s, .ok ()⟩

/-- A scripted status sequence that answers `Running, Running, Completed`. -/
def runningRunningCompleted : Nat → StatusResponse :=
  fun i => if i < 2 then ⟨"Running", ""⟩ else ⟨"Completed", ""⟩

/-- A scripted status sequence that always answers `Running`. -/
def allRunning : Nat → StatusResponse := fun _ => ⟨"Running", ""⟩

/-- A scripted status sequence whose first answer is `Failed` with a
service error message. -/
def failedFirst (msg : String) : Nat → StatusResponse :=
  fun _ => ⟨"Failed", msg⟩

theorem pollLoopAux_all_nonterminal (s : Nat → StatusResponse)
    (h : ∀ i, (s i).job_state ≠ "Completed" ∧ (s i).job_state ≠ "Failed") :
    ∀ fuel calls sleeps status, status ≠ "Completed" →
      pollLoopAux (okScript s) fuel calls sleeps status =
        ⟨.timeoutError, calls + fuel, sleeps + fuel⟩ := by
  intro fuel
  induction fuel with
  | zero => intro calls sleeps status hs; simp [pollLoopAux, hs]
  | succ n ih =>
    intro calls sleeps status _
    have h1 := (h calls).1
    have h2 := (h calls).2
    simp only [pollLoopAux, okScript, h1, h2, if_false]
    rw [ih (calls + 1) (sleeps + 1) _ h1]
    have hc : calls + 1 + n = calls + (n + 1) := by omega
    have hs : sleeps + 1 + n = sleeps + (n + 1) := by omega
    rw [hc, hs]

/-- C2: for every scripted sequence of status responses containing no
`Completed` and no `Failed` state, the poll loop makes exactly the
configured maximum number of `checkJobStatus` calls, never more, and then
signals `TimeoutError`. -/
theorem c2_poll_exhausts_all_attempts (s : Nat → StatusResponse)
    (maxAttempts : Nat)
    (h : ∀ i, (s i).job_state ≠ "Completed" ∧ (s i).job_state ≠ "Failed") :
    (pollLoop (okScript s) maxAttempts).outcome = .timeoutError ∧
    (pollLoop (okScript s) maxAttempts).statusCalls = maxAttempts := by
  rw [pollLoop, pollLoopAux_all_nonterminal s h maxAttempts 0 0 "" (by decide)]
  exact ⟨rfl, by simp⟩

/-- C2 witness: with max attempts 3 and all responses `Running`, exactly 3
status calls occur and the outcome is `TimeoutError`. -/
theorem c2_poll_exhausts_all_attempts_witness :
    (pollLoop (okScript allRunning) 3).outcome = .timeoutError ∧
    (pollLoop (okScript allRunning) 3).statusCalls = 3 :=
  c2_poll_exhausts_all_attempts allRunning 3
    (fun _ => ⟨(by decide : ("Running" : String) ≠ "Completed"),
      (by decide : ("Running" : String) ≠ "Failed")⟩)

/-- C4 counterexample: with max attempts 3 and all responses `Running`, the
loop performs 3 interval sleeps, not 3 - 1 = 2 as the claim states — the
body sleeps at the end of every non-terminal iteration, including the one
in which the attempt counter reaches the maximum. -/
theorem c4_final_iteration_sleep_counterexample :
    (pollLoop (okScript allRunning) 3).sleeps = 3 ∧
    ¬ (pollLoop (okScript allRunning) 3).sleeps = 3 - 1 := by
  decide

/-- C4 amended: every poll iteration observing a non-terminal state sleeps
for the fixed interval — including the iteration in which the attempt
counter reaches the maximum, since the loop only exits at the subsequent
guard check — so N all-non-terminal responses with max attempts = N
perform exactly N sleeps, one per status call. -/
theorem c4_sleep_per_nonterminal_iteration (s : Nat → StatusResponse)
    (maxAttempts : Nat)
    (h : ∀ i, (s i).job_state ≠ "Completed" ∧ (s i).job_state ≠ "Failed") :
    (pollLoop (okScript s) maxAttempts).sleeps = maxAttempts ∧
    (pollLoop (okScript s) maxAttempts).sleeps =
      (pollLoop (okScript s) maxAttempts).statusCalls := by
  rw [pollLoop, pollLoopAux_all_nonterminal s h maxAttempts 0 0 "" (by decide)]
  exact ⟨by simp, by simp⟩

/-- C4 witness: with max attempts 3 and all responses `Running`, exactly 3
sleeps occur, one per status call. -/
theorem c4_sleep_per_nonterminal_iteration_witness :
    (pollLoop (okScript allRunning) 3).sleeps = 3 ∧
    (pollLoop (okScript allRunning) 3).sleeps =
      (pollLoop (okScript allRunning) 3).statusCalls :=
  c4_sleep_per_nonterminal_iteration allRunning 3
    (fun _ => ⟨(by decide : ("Running" : String) ≠ "Completed"),
      (by decide : ("Running" : String) ≠ "Failed")⟩)

/-- C3: if the first status response is `Failed` with error message
`"bad audio"`, the poll loop makes exactly 1 status call and no sleeps,
the run ends with `RemoteJobFailure` carrying that message, and no
download is attempted. -/
theorem c3_failed_on_first_call (s : Nat → StatusResponse)
    (maxAttempts : Nat) (hmax : 0 < maxAttempts)
    (h0 : s 0 = ⟨"Failed", "bad audio"⟩) :
    mainRun (goodEnv s) maxAttempts =
      ⟨false, true, true, true, false, 1, 0,
        some (.remoteJobFailure "bad audio")⟩ := by
  obtain ⟨n, rfl⟩ : ∃ n, maxAttempts = n + 1 :=
    ⟨maxAttempts - 1, by omega⟩
  simp [mainRun, goodEnv, pollLoop, pollLoopAux, okScript, h0]

/-- C3 witness: a run whose status script always answers `Failed` with
`"bad audio"`, under the configured ceiling of 60 attempts, makes 1 call,
sleeps 0 times, carries the message, and never attempts a download. -/
theorem c3_failed_on_first_call_witness :
    mainRun (goodEnv (failedFirst "bad audio")) 60 =
      ⟨false, true, true, true, false, 1, 0,
        some (.remoteJobFailure "bad audio")⟩ :=
  c3_failed_on_first_call (failedFirst "bad audio") 60 (by decide) rfl

/-- C5: with the scripted responses `Running, Running, Completed` under the
configured ceiling of 60 attempts, the loop makes exactly 3 status calls
(sleeping twice), exits on the first `Completed`, and the workflow
proceeds to the result download. -/
theorem c5_running_running_completed :
    mainRun (goodEnv runningRunningCompleted) 60 =
      ⟨false, true, true, true, true, 3, 2, some .completed⟩ := by
  decide

/-- C1 counterexample: in a run where every remote call succeeds but the
service reports a `Failed` job state on the first poll, and in a run where
the poll ceiling (3 attempts) expires on all-`Running` responses, the
orchestrator aborts the remaining steps but the process terminates by
returning from `main`, i.e. with exit status zero — contradicting the
claim that every unrecovered failure yields a non-zero exit. -/
theorem c1_zero_exit_counterexample :
    (mainRun (goodEnv (failedFirst "boom")) 60).pollOutcome =
      some (.remoteJobFailure "boom") ∧
    (mainRun (goodEnv (failedFirst "boom")) 60).exitNonZero = false ∧
    (mainRun (goodEnv allRunning) 3).pollOutcome = some .timeoutError ∧
    (mainRun (goodEnv allRunning) 3).exitNonZero = false := by
  decide

/-- C1 amended: steps that raise errors (initialization, stream
acquisition, upload, start, a rejecting status check, result download)
abort the remaining steps and terminate the process with a non-zero exit
via `process.exit(1)`; but a service-reported `Failed` job state and the
poll-ceiling expiry abort the remaining steps (no download is attempted)
while terminating with a ZERO exit status, by returning from `main`.
Concretely: a zero exit happens only when the poll outcome was
`completed` (with a successful download), `timeoutError`, or
`remoteJobFailure`; the latter two never attempt a download and always
exit zero; a run that dies before polling, or whose status check throws,
or whose download throws after completion, exits non-zero. -/
theorem c1_exit_status_by_failure_kind (env : Env) (maxAttempts : Nat) :
    ((mainRun env maxAttempts).exitNonZero = false →
      (mainRun env maxAttempts).pollOutcome = some .completed ∨
      (mainRun env maxAttempts).pollOutcome = some .timeoutError ∨
      ∃ m, (mainRun env maxAttempts).pollOutcome =
        some (.remoteJobFailure m))
  ∧ (∀ m, (mainRun env maxAttempts).pollOutcome =
        some (.remoteJobFailure m) →
      (mainRun env maxAttempts).downloadAttempted = false ∧
      (mainRun env maxAttempts).exitNonZero = false)
  ∧ ((mainRun env maxAttempts).pollOutcome = some .timeoutError →
      (mainRun env maxAttempts).downloadAttempted = false ∧
      (mainRun env maxAttempts).exitNonZero = false)
  ∧ ((mainRun env maxAttempts).pollOutcome = none →
      (mainRun env maxAttempts).exitNonZero = true ∧
      (mainRun env maxAttempts).downloadAttempted = false)
  ∧ (∀ e, (mainRun env maxAttempts).pollOutcome = some (.threw e) →
      (mainRun env maxAttempts).exitNonZero = true ∧
      (mainRun env maxAttempts).downloadAttempted = false)
  ∧ (∀ e, (mainRun env maxAttempts).pollOutcome = some .completed →
      env.downloadResult = .error e →
      (mainRun env maxAttempts).exitNonZero = true) := by
  obtain ⟨i, s, u, st, sc, d⟩ := env
  cases i with
  | error e => simp [mainRun]
  | ok _ =>
    cases s with
    | error e => simp [mainRun]
    | ok _ =>
      cases u with
      | error e => simp [mainRun]
      | ok _ =>
        cases st with
        | error e => simp [mainRun]
        | ok _ =>
          cases hp : (pollLoop sc maxAttempts).outcome <;>
            cases d <;> simp [mainRun, hp]

/-- C1 witness: in the concrete `Failed`-on-first-poll run, the amended
theorem yields that no download is attempted and the exit status is zero. -/
theorem c1_exit_status_by_failure_kind_witness :
    (mainRun (goodEnv (failedFirst "boom")) 60).downloadAttempted = false ∧
    (mainRun (goodEnv (failedFirst "boom")) 60).exitNonZero = false :=
  (c1_exit_status_by_failure_kind (goodEnv (failedFirst "boom")) 60).2.1
    "boom" (by decide)

/-- Per-job state of `SarvamBatchClient` in `sarvam.js`: the constructor
sets `jobId`, `inputStoragePath` and `outputStoragePath` to `null`
(modelled as `none`). -/
structure SarvamBatchClient where
  jobId : Option String
  inputStoragePath : Option String
  outputStoragePath : Option String
deriving DecidableEq

/-- A freshly constructed `SarvamBatchClient` (`new SarvamBatchClient()`). -/
def SarvamBatchClient.new : SarvamBatchClient := ⟨none, none, none⟩

/-- Response body of the `job/init` endpoint, as read by `initializeJob`. -/
structure InitResponse where
  job_id : String
  input_storage_path : String
  output_storage_path : String
deriving DecidableEq

/-- The `initializeJob` method of `SarvamBatchClient` in `sarvam.js`.
`response` is the result of the `axios.post` to `job/init` (`.error`
models a transport error or non-2xx response, on which axios rejects).
On success the three state fields are assigned from the response body and
the body is returned; on failure the catch block logs and re-throws, and
no assignment has run. -/
def initializeJob (client : SarvamBatchClient)
    (response : Except String InitResponse) :
    SarvamBatchClient × Except String InitResponse :=
  match response with
  | .ok d =>
    (⟨some d.job_id, some d.input_storage_path, some d.output_storage_path⟩,
      .ok d)
  | .error e => (client, .error e)

/-- C9: when `initializeJob` fails (transport error or non-2xx response),
the client's state is unchanged — `jobId`, `inputStoragePath` and
`outputStoragePath` keep their previous values, `none` for a fresh
client — and the error is re-raised to the caller. -/
theorem c9_initializeJob_failure_leaves_state (client : SarvamBatchClient)
    (e : String) :
    (initializeJob client (.error e)).1 = client ∧
    (initializeJob client (.error e)).2 = .error e ∧
    (initializeJob .new (.error e)).1.jobId = none ∧
    (initializeJob .new (.error e)).1.inputStoragePath = none ∧
    (initializeJob .new (.error e)).1.outputStoragePath = none := by
  exact ⟨rfl, rfl, rfl, rfl, rfl⟩

/-- One named artifact in the output-storage listing of `sarvam.js`
(`listResponse.data` elements, field `name`). -/
structure OutFile where
  name : String
deriving DecidableEq

/-- Observable filesystem / network event during `downloadResults`:
creating the destination directory, listing the output storage, opening a
streaming download of a URL, and completing a write of the downloaded
bytes to a local path. -/
inductive DlEvent where
  | mkdir (path : String)
  | list (path : String)
  | download (url : String)
  | write (path : String) (bytes : List Nat)
deriving DecidableEq

/-- The per-file loop of `downloadResults` in `sarvam.js`: for each listed
file, sequentially, open the download of
`{outputStoragePath}/{name}`, pipe it into a write stream at
`{destinationRoot}/{name}` and await its finish before the next file.
`remote` gives the bytes served at each URL.  Returns the event trace and
the files written (path, bytes), both in order. -/
def downloadFiles (outputStoragePath destRoot : String)
    (remote : String → List Nat) :
    List OutFile → List DlEvent × List (String × List Nat)
  | [] => ([], [])
  | f :: rest =>
    let fileUrl := outputStoragePath ++ "/" ++ f.name
    let downloadPath := destRoot ++ "/" ++ f.name
    let bytes := remote fileUrl
    let tail := downloadFiles outputStoragePath destRoot remote rest
    (DlEvent.download fileUrl :: DlEvent.write downloadPath bytes :: tail.1,
      (downloadPath, bytes) :: tail.2)

/-- The `downloadResults` method of `SarvamBatchClient` in `sarvam.js`
(success path): ensure the destination directory exists (`mkdirSync` only
when absent), list the output storage with one call, then download each
listed file sequentially in listing order. -/
def downloadResults (outputStoragePath destRoot : String) (dirExists : Bool)
    (listing : List OutFile) (remote : String → List Nat) :
    List DlEvent × List (String × List Nat) :=
  let body := downloadFiles outputStoragePath destRoot remote listing
  ((if dirExists then [] else [DlEvent.mkdir destRoot]) ++
    DlEvent.list outputStoragePath :: body.1, body.2)

/-- C6: with the output listing `[{name:"a.json"},{name:"b.txt"}]`,
`downloadResults` performs exactly two downloads, sequentially in listing
order — the write of `a.json` completes before the download of `b.txt`
starts, as the event trace shows — each artifact is written to
`{destinationRoot}/{name}`, and afterwards both destination files exist
with bytes equal to the corresponding remote bytes. -/
theorem c6_download_two_files_in_order (out destRoot : String)
    (dirExists : Bool) (remote : String → List Nat) :
    downloadResults out destRoot dirExists [⟨"a.json"⟩, ⟨"b.txt"⟩] remote =
      ((if dirExists then [] else [DlEvent.mkdir destRoot]) ++
        [DlEvent.list out,
          DlEvent.download (out ++ "/" ++ "a.json"),
          DlEvent.write (destRoot ++ "/" ++ "a.json")
            (remote (out ++ "/" ++ "a.json")),
          DlEvent.download (out ++ "/" ++ "b.txt"),
          DlEvent.write (destRoot ++ "/" ++ "b.txt")
            (remote (out ++ "/" ++ "b.txt"))],
        [(destRoot ++ "/" ++ "a.json", remote (out ++ "/" ++ "a.json")),
          (destRoot ++ "/" ++ "b.txt", remote (out ++ "/" ++ "b.txt"))]) :=
  rfl

/-- Splits a character list at every occurrence of `sep`, with the
semantics of the JavaScript `String.prototype.split` with a one-character
separator: the empty string splits to `[""]`, and leading/trailing/double
separators produce empty segments. -/
def jsSplit (sep : Char) : List Char → List (List Char)
  | [] => [[]]
  | c :: rest =>
    if c = sep then [] :: jsSplit sep rest
    else
      match jsSplit sep rest with
      | [] => [[c]]
      | seg :: segs => (c :: seg) :: segs

theorem jsSplit_cons_sep (sep : Char) (rest : List Char) :
    jsSplit sep (sep :: rest) = [] :: jsSplit sep rest := by
  simp [jsSplit]

theorem jsSplit_ne_nil (sep : Char) (l : List Char) : jsSplit sep l ≠ [] := by
  cases l with
  | nil => simp [jsSplit]
  | cons c rest =>
    simp only [jsSplit]
    by_cases h : c = sep
    · simp [h]
    · simp only [h, if_false]
      cases hs : jsSplit sep rest <;> simp

theorem jsSplit_of_not_mem (sep : Char) (l : List Char) (h : sep ∉ l) :
    jsSplit sep l = [l] := by
  induction l with
  | nil => simp [jsSplit]
  | cons c rest ih =>
    by_cases hc : c = sep
    · subst hc; exact absurd (List.mem_cons_self c rest) h
    · have hr : sep ∉ rest := fun hh => h (List.mem_cons_of_mem _ hh)
      simp [jsSplit, hc, ih hr]

theorem two_le_length_jsSplit_append (sep : Char) :
    ∀ xs ys : List Char, 2 ≤ (jsSplit sep (xs ++ sep :: ys)).length := by
  intro xs
  induction xs with
  | nil =>
    intro ys
    rw [List.nil_append, jsSplit_cons_sep, List.length_cons]
    cases h : jsSplit sep ys with
    | nil => exact absurd h (jsSplit_ne_nil _ _)
    | cons a l => simp
  | cons c xs ih =>
    intro ys
    by_cases hc : c = sep
    · rw [hc, List.cons_append, jsSplit_cons_sep, List.length_cons]
      cases h : jsSplit sep (xs ++ sep :: ys) with
      | nil => exact absurd h (jsSplit_ne_nil _ _)
      | cons a l => simp
    · rw [List.cons_append]
      simp only [jsSplit, hc, if_false]
      have h2 := ih ys
      cases h : jsSplit sep (xs ++ sep :: ys) with
      | nil => exact absurd h (jsSplit_ne_nil _ _)
      | cons seg segs =>
        rw [h] at h2
        simpa using h2

theorem getLast?_jsSplit_append (sep : Char) :
    ∀ xs ys : List Char,
      (jsSplit sep (xs ++ sep :: ys)).getLast? =
        (jsSplit sep ys).getLast? := by
  intro xs
  induction xs with
  | nil =>
    intro ys
    rw [List.nil_append, jsSplit_cons_sep]
    cases h : jsSplit sep ys with
    | nil => exact absurd h (jsSplit_ne_nil _ _)
    | cons a l => exact List.getLast?_cons_cons
  | cons c xs ih =>
    intro ys
    by_cases hc : c = sep
    · rw [hc, List.cons_append, jsSplit_cons_sep]
      cases h : jsSplit sep (xs ++ sep :: ys) with
      | nil => exact absurd h (jsSplit_ne_nil _ _)
      | cons a l =>
        rw [List.getLast?_cons_cons, ← h, ih ys]
    · rw [List.cons_append]
      simp only [jsSplit, hc, if_false]
      have h2 := two_le_length_jsSplit_append sep xs ys
      cases h : jsSplit sep (xs ++ sep :: ys) with
      | nil => exact absurd h (jsSplit_ne_nil _ _)
      | cons seg segs =>
        rw [h] at h2
        cases segs with
        | nil => simp at h2
        | cons b l =>
          rw [List.getLast?_cons_cons, ← ih ys, h, List.getLast?_cons_cons]

/-- Tests whether `pat` is a leading segment of `s`, with the semantics of
the JavaScript `String.prototype.startsWith` call used by
`getAudioStream`. -/
def startsWithList : List Char → List Char → Bool
  | [], _ => true
  | _ :: _, [] => false
  | p :: ps, c :: cs => (p = c) && startsWithList ps cs

/-- The `AUDIO_SOURCE.startsWith('http')` test of `getAudioStream` in
`sarvam.js`, over the embedded string representation. -/
def jsStartsWith (s pat : String) : Bool := startsWithList pat.data s.data

/-- File-name inference of `getAudioStream` in `sarvam.js`:
`AUDIO_SOURCE.split('/').pop() || 'audio.wav'` — the last segment of the
split (the split of a string is never the empty array, so `pop` returns
its last element), with the fixed default `'audio.wav'` when that segment
is the empty string (the only falsy string). -/
def inferName (source : String) : String :=
  let last := ((jsSplit '/' source.data).getLast?).getD []
  if last = [] then "audio.wav" else String.mk last

/-- Kind of stream handed back by `getAudioStream`: the body stream of a
remote fetch, or a local read stream on a path. -/
inductive StreamKind where
  | remoteStream
  | localStream (path : String)
deriving DecidableEq

/-- Return value of `getAudioStream`: `{ stream, name }`. -/
structure AudioHandle where
  stream : StreamKind
  name : String
deriving DecidableEq

/-- Error message thrown by `getAudioStream` for a missing local file. -/
def fileNotFoundMsg (p : String) : String := "File not found: " ++ p

/-- The `getAudioStream` method of `SarvamBatchClient` in `sarvam.js`,
with the `AUDIO_SOURCE` constant generalized to `source`.  If the source
starts with `http`, a streaming fetch is issued (`fetchResult` models its
rejection or success); otherwise the source is a local path, rejected with
`File not found: …` when `fileExists` is false there and opened as a read
stream otherwise.  Both branches infer the name the same way. -/
def getAudioStream (source : String) (fetchResult : Except String Unit)
    (fileExists : String → Bool) : Except String AudioHandle :=
  if jsStartsWith source "http" then
    match fetchResult with
    | .error e => .error e
    | .ok _ => .ok ⟨.remoteStream, inferName source⟩
  else
    if fileExists source = false then .error (fileNotFoundMsg source)
    else .ok ⟨.localStream source, inferName source⟩

/-- C7: `getAudioStream` infers the file name as the last path segment of
the source specifier — every specifier ending in `/clip.wav` yields
`clip.wav`, every specifier with no final path segment (ending in `/`, or
empty) yields the fixed default `audio.wav` — and every successful
`getAudioStream` call returns exactly the inferred name. -/
theorem c7_name_is_last_path_segment (pre : List Char) :
    inferName (String.mk (pre ++ ('/' :: "clip.wav".data))) = "clip.wav" ∧
    inferName (String.mk (pre ++ ['/'])) = "audio.wav" ∧
    inferName "" = "audio.wav" ∧
    ∀ (source : String) (fetchResult : Except String Unit)
      (fileExists : String → Bool) (hdl : AudioHandle),
      getAudioStream source fetchResult fileExists = .ok hdl →
      hdl.name = inferName source := by
  refine ⟨?_, ?_, by decide, ?_⟩
  · have h1 : (jsSplit '/'
        (String.mk (pre ++ ('/' :: "clip.wav".data))).data).getLast? =
        some "clip.wav".data := by
      show (jsSplit '/' (pre ++ ('/' :: "clip.wav".data))).getLast? = _
      rw [getLast?_jsSplit_append,
        jsSplit_of_not_mem '/' "clip.wav".data (by decide)]
      rfl
    unfold inferName
    rw [h1]
    decide
  · have h1 : (jsSplit '/' (String.mk (pre ++ ['/'])).data).getLast? =
        some ([] : List Char) := by
      show (jsSplit '/' (pre ++ '/' :: [])).getLast? = _
      rw [getLast?_jsSplit_append]
      rfl
    unfold inferName
    rw [h1]
    decide
  · intro source fetchResult fileExists hdl hok
    unfold getAudioStream at hok
    split at hok
    · cases fetchResult with
      | error e => exact absurd hok (by simp)
      | ok u =>
        rw [Except.ok.injEq] at hok
        rw [← hok]
    · split at hok
      · exact absurd hok (by simp)
      · rw [Except.ok.injEq] at hok
        rw [← hok]

/-- C7 witness: concrete instances — a remote URI ending in `/clip.wav`
infers `clip.wav`, a specifier ending in `/` infers the default, and a
successful local open returns the inferred name. -/
theorem c7_name_is_last_path_segment_witness :
    inferName "http://host/clip.wav" = "clip.wav" ∧
    inferName "http://host/" = "audio.wav" ∧
    AudioHandle.name ⟨.localStream "a.wav", inferName "a.wav"⟩ =
      inferName "a.wav" := by
  refine ⟨?_, ?_, ?_⟩
  · exact (c7_name_is_last_path_segment "http://host".data).1
  · exact (c7_name_is_last_path_segment "http://host".data).2.1
  · exact (c7_name_is_last_path_segment []).2.2.2 "a.wav" (.ok ())
      (fun _ => true) ⟨.localStream "a.wav", inferName "a.wav"⟩ rfl

/-- C10: `getAudioStream` takes the remote branch exactly when the source
specifier starts with the literal `http`; every other specifier is
treated as a local file, where it throws `File not found: …` exactly when
no file exists at that path and otherwise returns a local read stream on
it. -/
theorem c10_remote_iff_http (source : String)
    (fileExists : String → Bool) :
    (jsStartsWith source "http" = true →
      getAudioStream source (.ok ()) fileExists =
        .ok ⟨.remoteStream, inferName source⟩ ∧
      ∀ e, getAudioStream source (.error e) fileExists = .error e)
  ∧ (jsStartsWith source "http" = false →
      (fileExists source = false →
        ∀ fetchResult, getAudioStream source fetchResult fileExists =
          .error (fileNotFoundMsg source))
      ∧ (fileExists source = true →
        ∀ fetchResult, getAudioStream source fetchResult fileExists =
          .ok ⟨.localStream source, inferName source⟩))
  ∧ (∀ fetchResult nm,
      getAudioStream source fetchResult fileExists =
        .ok ⟨.remoteStream, nm⟩ →
      jsStartsWith source "http" = true) := by
  refine ⟨fun hs => ⟨?_, fun e => ?_⟩,
    fun hs => ⟨fun hf fetchResult => ?_, fun hf fetchResult => ?_⟩,
    fun fetchResult nm hok => ?_⟩
  · simp [getAudioStream, hs]
  · simp [getAudioStream, hs]
  · simp [getAudioStream, hs, hf]
  · simp [getAudioStream, hs, hf]
  · by_contra hns
    rw [Bool.not_eq_true] at hns
    unfold getAudioStream at hok
    rw [hns] at hok
    simp only [Bool.false_eq_true, if_false] at hok
    split at hok
    · exact absurd hok (by simp)
    · rw [Except.ok.injEq] at hok
      exact absurd (congrArg AudioHandle.stream hok) (by simp)

/-- C10 witness: a source starting with `http` takes the remote branch; a
local path with no file present throws the file-not-found error; a local
path with a file present returns the local read stream. -/
theorem c10_remote_iff_http_witness :
    getAudioStream "http://h/a.wav" (.ok ()) (fun _ => false) =
      .ok ⟨.remoteStream, inferName "http://h/a.wav"⟩ ∧
    getAudioStream "nofile.wav" (.ok ()) (fun _ => false) =
      .error (fileNotFoundMsg "nofile.wav") ∧
    getAudioStream "a.wav" (.ok ()) (fun _ => true) =
      .ok ⟨.localStream "a.wav", inferName "a.wav"⟩ := by
  refine ⟨?_, ?_, ?_⟩
  · exact ((c10_remote_iff_http "http://h/a.wav" (fun _ => false)).1
      (by decide)).1
  · exact (((c10_remote_iff_http "nofile.wav" (fun _ => false)).2.1
      (by decide)).1 rfl) (.ok ())
  · exact (((c10_remote_iff_http "a.wav" (fun _ => true)).2.1
      (by decide)).2 rfl) (.ok ())

/-- The `String(n).padStart(2, '0')` call of `main.js`: pads the decimal
rendering on the left with `'0'` up to length 2, leaving longer strings
unchanged. -/
def padStart2 (s : String) : String :=
  if 2 ≤ s.length then s
  else String.mk (List.replicate (2 - s.length) '0') ++ s

theorem length_padStart2 (s : String) :
    (padStart2 s).length = if 2 ≤ s.length then s.length else 2 := by
  by_cases h : 2 ≤ s.length
  · simp [padStart2, h]
  · unfold padStart2
    rw [if_neg h, if_neg h, String.length_append]
    show (List.replicate (2 - s.length) '0').length + s.length = 2
    rw [List.length_replicate]
    omega

theorem two_le_length_padStart2 (s : String) : 2 ≤ (padStart2 s).length := by
  rw [length_padStart2]
  split
  · assumption
  · exact le_refl 2

theorem length_padStart2_repr_of_lt (m : Nat) (h : m < 60) :
    (padStart2 (Nat.repr m)).length = 2 := by
  have hl : (Nat.repr m).length = 1 ∨ (Nat.repr m).length = 2 := by
    revert h
    revert m
    decide
  rw [length_padStart2]
  rcases hl with hl | hl <;> rw [hl] <;> norm_num

/-- The `Math.round(t)` call of `fmt` in `main.js`: for the non-negative
finite utterance times produced by the service, JavaScript rounds half
away from zero, i.e. to `⌊t + 1/2⌋`. -/
def jsRound (t : ℚ) : ℤ := ⌊t + 1/2⌋

/-- The `fmt` helper of `main.js`: round the time to whole seconds `s`,
then render `Math.floor(s/3600)` hours unpadded, and
`Math.floor((s%3600)/60)` minutes and `s%60` seconds zero-padded to two
digits, joined by `:`.  (`Int.toNat` is the identity on the non-negative
rounded times in the service's domain.) -/
def fmt (t : ℚ) : String :=
  let s := (jsRound t).toNat
  Nat.repr (s / 3600) ++ ":" ++ padStart2 (Nat.repr ((s % 3600) / 60)) ++
    ":" ++ padStart2 (Nat.repr (s % 60))

/-- One element of the `resp.results.utterances` array of `main.js`:
start and end times in seconds, the transcribed text, and the diarized
speaker index. -/
structure Utterance where
  start : ℚ
  «end» : ℚ
  transcript : String
  speaker : Nat

/-- The `SPEAKER${String(u.speaker).padStart(2,'0')}` label of `main.js`. -/
def speakerLabel (n : Nat) : String := "SPEAKER" ++ padStart2 (Nat.repr n)

/-- One line of the `raw_transcript` built by `main.js`:
`[<start> -> <end>] SPEAKERnn: <text>`. -/
def formatLine (u : Utterance) : String :=
  "[" ++ fmt u.start ++ " -> " ++ fmt u.«end» ++ "] SPEAKER" ++
    padStart2 (Nat.repr u.speaker) ++ ": " ++ u.transcript

/-- The `raw_transcript` value of `main.js`: the formatted lines joined
with newlines. -/
def raw_transcript (utterances : List Utterance) : String :=
  String.intercalate "\n" (utterances.map formatLine)

/-- One element of the structured `transcript` array emitted by
`main.js`. -/
structure TranscriptEntry where
  start : String
  «end» : String
  text : String
  speaker : String
deriving DecidableEq

/-- The structured `transcript` array of `main.js`: one
`{start, end, text, speaker}` record per utterance. -/
def transcript (utterances : List Utterance) : List TranscriptEntry :=
  utterances.map fun u =>
    ⟨fmt u.start, fmt u.«end», u.transcript, speakerLabel u.speaker⟩

/-- The `language` value of `main.js`:
`resp.metadata?.language?.code ?? 'hi'` — the service-provided code when
present, the fixed fallback `hi` otherwise. -/
def language (code : Option String) : String := code.getD "hi"

theorem fmt_decomposition (t : ℚ) :
    ∃ hh mm ss : Nat, mm < 60 ∧ ss < 60 ∧
      fmt t = Nat.repr hh ++ ":" ++ padStart2 (Nat.repr mm) ++ ":" ++
        padStart2 (Nat.repr ss) ∧
      (padStart2 (Nat.repr mm)).length = 2 ∧
      (padStart2 (Nat.repr ss)).length = 2 ∧
      3600 * hh + 60 * mm + ss = (jsRound t).toNat := by
  refine ⟨(jsRound t).toNat / 3600, ((jsRound t).toNat % 3600) / 60,
    (jsRound t).toNat % 60, by omega, by omega, rfl, ?_, ?_, by omega⟩
  · exact length_padStart2_repr_of_lt _ (by omega)
  · exact length_padStart2_repr_of_lt _ (by omega)

/-- C8: the consumer formats each utterance as
`[H:MM:SS -> H:MM:SS] SPEAKERnn: text` — each time decomposed from its
whole-second rounding into hours, minutes and seconds with the minutes
and seconds fields zero-padded two-digit values below 60, and the speaker
index zero-padded to at least two digits — emits one
`{start, end, text, speaker}` record per utterance, and emits the
service-provided language code when present and the fixed fallback `hi`
otherwise. -/
theorem c8_consumer_output (utterances : List Utterance)
    (code : Option String) :
    raw_transcript utterances =
      String.intercalate "\n" (utterances.map (fun u =>
        "[" ++ fmt u.start ++ " -> " ++ fmt u.«end» ++ "] SPEAKER" ++
          padStart2 (Nat.repr u.speaker) ++ ": " ++ u.transcript))
  ∧ transcript utterances = utterances.map (fun u =>
      ⟨fmt u.start, fmt u.«end», u.transcript,
        "SPEAKER" ++ padStart2 (Nat.repr u.speaker)⟩)
  ∧ (transcript utterances).length = utterances.length
  ∧ (∀ t : ℚ, ∃ hh mm ss : Nat, mm < 60 ∧ ss < 60 ∧
      fmt t = Nat.repr hh ++ ":" ++ padStart2 (Nat.repr mm) ++ ":" ++
        padStart2 (Nat.repr ss) ∧
      (padStart2 (Nat.repr mm)).length = 2 ∧
      (padStart2 (Nat.repr ss)).length = 2 ∧
      3600 * hh + 60 * mm + ss = (jsRound t).toNat)
  ∧ (∀ n : Nat, 2 ≤ (padStart2 (Nat.repr n)).length)
  ∧ language code = code.getD "hi"
  ∧ (∀ c, language (some c) = c) ∧ language none = "hi" := by
  refine ⟨rfl, rfl, ?_, fmt_decomposition, ?_, rfl, fun c => rfl, rfl⟩
  · simp [transcript]
  · intro n
    exact two_le_length_padStart2 _

/-- Concrete evaluation of the consumer formatting: 3661.4 seconds rounds
to 3661 and renders as `1:01:01`, and a two-utterance list yields two
records and the fallback language code. -/
theorem fmt_concrete_example :
    fmt ((36614 : ℚ) / 10) = "1:01:01" ∧
    (transcript [⟨0, 1, "hello", 0⟩, ⟨1, 2, "there", 1⟩]).length = 2 ∧
    language none = "hi" ∧
    formatLine ⟨0, (36614 : ℚ) / 10, "hi there", 1⟩ =
      "[0:00:00 -> 1:01:01] SPEAKER01: hi there" := by
  have hr : jsRound ((36614 : ℚ) / 10) = 3661 := by
    unfold jsRound
    norm_num
  have hr0 : jsRound 0 = 0 := by unfold jsRound; norm_num
  refine ⟨?_, by simp [transcript], rfl, ?_⟩
  · unfold fmt
    rw [hr]
    decide
  · unfold formatLine
    unfold fmt
    rw [hr, hr0]
    decide
